import Mathlib

/-!
Verification of the subscription/payment state engine and the navigation
dispatcher of the multilingual VPN shop bot (src/multilingual_bot.py).

Timestamps are modeled as integer seconds; a Python timedelta of d days is
d * secondsPerDay.  SQLite rows are modeled as Lean structures keeping the
schema field order; the three tables live in a DB record.  Python exceptions
raised before any database write are modeled as error results that leave the
database and screen unchanged.  Python int() is modeled as decimal parsing,
str.split as single-character splitting, and Python truthiness of nullable
integer columns (None and 0 are falsy) as intTruthy.
-/

namespace VpnBot

def secondsPerDay : Int := 86400

/-- Python truthiness of a nullable integer column: None and 0 are falsy. -/
def intTruthy : Option Int → Bool
  | none => false
  | some n => n != 0

/-- Does the character list `s` start with the character list `p`
    (Python str.startswith)? -/
def charListStarts : List Char → List Char → Bool
  | _, [] => true
  | [], _ :: _ => false
  | a :: as, b :: bs => a = b && charListStarts as bs

/-- Python s.startswith(p). -/
def pyStarts (s p : String) : Bool :=
  charListStarts s.toList p.toList

/-- Python s.split(sep) for a one-character separator, on char lists. -/
def splitChars (sep : Char) : List Char → List (List Char)
  | [] => [[]]
  | c :: cs =>
    let r := splitChars sep cs
    if c = sep then [] :: r
    else
      match r with
      | [] => [[c]]
      | h :: t => (c :: h) :: t

/-- Python data.split("_"). -/
def pySplitU (s : String) : List String :=
  (splitChars '_' s.toList).map (fun cs => String.mk cs)

/-- Accumulate a decimal numeral; none on a non-digit character. -/
def natOfDigits : List Char → Nat → Option Nat
  | [], acc => some acc
  | c :: cs, acc =>
    if c.isDigit then natOfDigits cs (acc * 10 + (c.toNat - 48))
    else none

/-- Python int(s) on the decimal strings the bot produces; none models a
    raised ValueError. -/
def pyToInt (s : String) : Option Int :=
  match s.toList with
  | [] => none
  | '-' :: cs =>
    match cs with
    | [] => none
    | _ :: _ => (natOfDigits cs 0).map (fun n => -(n : Int))
  | cs => (natOfDigits cs 0).map (fun n => (n : Int))

/-- Python list indexing xs[i]: negative indices wrap once from the end;
    none models a raised IndexError. -/
def pyGet {α : Type} (xs : List α) (i : Int) : Option α :=
  let j : Int := if i < 0 then i + (xs.length : Int) else i
  if j < 0 then none else xs.get? j.toNat

/-- Python s.strip(). -/
def pyStrip (s : String) : String :=
  String.mk (((s.toList.dropWhile Char.isWhitespace).reverse.dropWhile
    Char.isWhitespace).reverse)

/-- Python s.isdigit(): nonempty and all decimal digits. -/
def pyIsDigit (s : String) : Bool :=
  match s.toList with
  | [] => false
  | cs => cs.all Char.isDigit

/-- A row of the users table, fields in schema order. -/
structure UserRow where
  userId : Nat
  username : Option String
  firstName : String
  languageCode : String
  createdAt : Int
  referrerId : Option Int
  subscriptionEnd : Option Int
  isTrialUsed : Bool
  isBlocked : Bool
  totalPaid : Int
  deriving Repr, DecidableEq

/-- A row of the subscriptions table (append-only). -/
structure SubRow where
  userId : Nat
  planName : String
  devices : Nat
  durationDays : Int
  price : Int
  paymentMethod : String
  startedAt : Int
  expiresAt : Int
  configUrl : String
  deriving Repr, DecidableEq

/-- A row of the payments table (append-only). -/
structure PayRow where
  userId : Nat
  amount : Int
  currency : String
  paymentMethod : String
  paymentId : String
  status : String
  deriving Repr, DecidableEq

/-- The three tables of vpn_shop.db. -/
structure DB where
  users : List UserRow
  subs : List SubRow
  pays : List PayRow
  deriving Repr, DecidableEq

/-- SELECT * FROM users WHERE user_id = ? (first matching row). -/
def lookupUser : List UserRow → Nat → Option UserRow
  | [], _ => none
  | u :: rest, uid => if u.userId = uid then some u else lookupUser rest uid

def DB.getUser (db : DB) (uid : Nat) : Option UserRow :=
  lookupUser db.users uid

/-- UPDATE users SET ... WHERE user_id = ?: rewrite every matching row. -/
def DB.updateWhere (db : DB) (uid : Nat) (f : UserRow → UserRow) : DB :=
  ⟨db.users.map (fun u => if u.userId = uid then f u else u), db.subs, db.pays⟩

/-- A catalog plan: name, device count, duration-to-price table. -/
structure Plan where
  planName : String
  devices : Nat
  prices : List (Int × Int)
  deriving Repr, DecidableEq

/-- plan['prices'][str(duration)]; none models a raised KeyError. -/
def Plan.priceFor (p : Plan) (d : Int) : Option Int :=
  (p.prices.find? (fun q => q.fst == d)).map (fun q => q.snd)

def PLANS_durations : List Int := [30, 60, 180, 365]

/-- The PLANS table of the source. -/
def PLANS_plans : List Plan :=
  [⟨"Basic", 1, [(30, 5), (60, 9), (180, 25), (365, 45)]⟩,
   ⟨"Standard", 3, [(30, 10), (60, 18), (180, 50), (365, 90)]⟩,
   ⟨"Premium", 5, [(30, 15), (60, 27), (180, 75), (365, 135)]⟩]

/-- The bot configuration assembled by load_config (environment path). -/
structure Config where
  botToken : String
  adminIds : List Nat
  trialDays : Int
  referredTrialDays : Int
  supportUsername : String
  paymentProviderToken : String
  webhookUrl : String
  deriving Repr, DecidableEq

/-- ADMIN_IDS parsing: split on comma, strip, keep all-digit entries. -/
def parseAdminIds (raw : String) : List Nat :=
  ((splitChars ',' raw.toList).map (fun cs => pyStrip (String.mk cs))).filterMap
    (fun s => if pyIsDigit s then natOfDigits s.toList 0 else none)

/-- load_config on the environment-variable path (the config.json fallback
    reads the filesystem and is outside this model); none models the raised
    RuntimeError (no BOT_TOKEN) or a ValueError from int(). -/
def load_config (env : String → Option String) : Option Config :=
  match env "BOT_TOKEN" with
  | none => none
  | some tok =>
    match pyToInt ((env "TRIAL_DAYS").getD "3") with
    | none => none
    | some td =>
      match pyToInt ((env "REFERRED_TRIAL_DAYS").getD "7") with
      | none => none
      | some rd =>
        some ⟨tok, parseAdminIds ((env "ADMIN_IDS").getD ""), td, rd,
              (env "SUPPORT_USERNAME").getD "@Support",
              (env "PAYMENT_PROVIDER_TOKEN").getD "",
              (env "WEBHOOK_URL").getD ""⟩

/-- The classification returned by get_subscription_status (the three
    translated message families). -/
inductive SubStatus
  | noSubscription
  | expired
  | active (daysLeft : Int)
  deriving Repr, DecidableEq

/-- get_subscription_status: both datetime.now() reads of the source are
    modeled as the single instant now; (sub_end - now).days is floor
    division by the seconds of a day. -/
def get_subscription_status (user : Option UserRow) (now : Int) : SubStatus :=
  match user with
  | none => SubStatus.noSubscription
  | some u =>
    match u.subscriptionEnd with
    | none => SubStatus.noSubscription
    | some subEnd =>
      if subEnd < now then SubStatus.expired
      else SubStatus.active (Int.fdiv (subEnd - now) secondsPerDay)

/-- The expiry field of the optional user row. -/
def subEndOf : Option UserRow → Option Int
  | none => none
  | some u => u.subscriptionEnd

/-- Menu entries of get_main_menu (labels abstracted from translations). -/
inductive MenuButton
  | trial
  | buy
  | about
  | support
  | language
  | account
  | referral
  | promo
  | help
  | admin
  deriving Repr, DecidableEq

/-- get_main_menu: keyboard rows keyed on the trial-used flag, with the
    admin row appended for identities in ADMIN_IDS. -/
def get_main_menu (adminIds : List Nat) (db : DB) (uid : Nat) :
    List (List MenuButton) :=
  let user := db.getUser uid
  let keyboard :=
    if (match user with
        | none => true
        | some u => u.isTrialUsed == false) then
      [[MenuButton.trial], [MenuButton.buy],
       [MenuButton.about, MenuButton.support], [MenuButton.language]]
    else
      [[MenuButton.buy], [MenuButton.account],
       [MenuButton.referral, MenuButton.promo],
       [MenuButton.help, MenuButton.support], [MenuButton.language]]
  if uid ∈ adminIds then keyboard ++ [[MenuButton.admin]] else keyboard

/-- Outcome of handle_trial as seen by the user. -/
inductive TrialOutcome
  | alreadyUsed
  | activated (days : Int) (expiresAt : Int)
  deriving Repr, DecidableEq

/-- The user row written by the trial-grant UPDATE: subscription_end is
    overwritten and is_trial_used set, every other field untouched. -/
def trialGrantedUser (u : UserRow) (expiresAt : Int) : UserRow :=
  ⟨u.userId, u.username, u.firstName, u.languageCode, u.createdAt,
   u.referrerId, some expiresAt, true, u.isBlocked, u.totalPaid⟩

/-- handle_trial: none models the TypeError raised when the user row is
    absent (the handler subscripts None before any write). -/
def handle_trial (cfg : Config) (db : DB) (uid : Nat) (now : Int) :
    Option (TrialOutcome × DB) :=
  match db.getUser uid with
  | none => none
  | some user =>
    if user.isTrialUsed then
      some (TrialOutcome.alreadyUsed, db)
    else
      let days : Int := if intTruthy user.referrerId then 7 else 3
      let expiresAt : Int := now + days * secondsPerDay
      some (TrialOutcome.activated days expiresAt,
            db.updateWhere uid (fun v => trialGrantedUser v expiresAt))

/-- A sequence of trial-grant attempts at the given instants; an attempt
    that raises contributes no outcome and changes nothing. -/
def runTrials (cfg : Config) (uid : Nat) : DB → List Int → DB × List TrialOutcome
  | db, [] => (db, [])
  | db, now :: rest =>
    match handle_trial cfg db uid now with
    | none => runTrials cfg uid db rest
    | some (out, db1) =>
      let r := runTrials cfg uid db1 rest
      (r.1, out :: r.2)

def isActivatedB : TrialOutcome → Bool
  | TrialOutcome.activated _ _ => true
  | TrialOutcome.alreadyUsed => false

/-- SELECT subscription_end FROM users WHERE user_id = ?. -/
def selectSubEnd (db : DB) (uid : Nat) : Option Int :=
  match db.getUser uid with
  | none => none
  | some u => u.subscriptionEnd

/-- Lines 544-550 / 590-596 of the source: the stacking base —
    current_end defaults to now when the row or field is absent, and is
    clamped up to now when lapsed. -/
def stackBase (subEnd : Option Int) (now : Int) : Int :=
  let currentEnd := match subEnd with | none => now | some e => e
  if currentEnd < now then now else currentEnd

/-- Modelled from the spec: base = currentExpiry when present and now is
    still before it, else now (the wording of the extension stacking law). -/
def specExpiryBase (subEnd : Option Int) (now : Int) : Int :=
  match subEnd with
  | none => now
  | some e => if now < e then e else now

/-- The user row written by the purchase UPDATE: subscription_end is set
    and total_paid incremented, every other field untouched. -/
def purchasedUser (u : UserRow) (newEnd : Int) (price : Int) : UserRow :=
  ⟨u.userId, u.username, u.firstName, u.languageCode, u.createdAt,
   u.referrerId, some newEnd, u.isTrialUsed, u.isBlocked, u.totalPaid + price⟩

/-- What process_payment did besides its database effect. -/
inductive PayAction
  | invoiceSent (payload : String) (amount : Int)
  | demoCompleted (newEnd : Int)
  deriving Repr, DecidableEq

/-- process_payment: the stars method sends an invoice and writes nothing;
    every other method runs the demo read-modify-write (update expiry and
    total_paid, append one subscription row).  none models the IndexError /
    KeyError of the catalog lookups, both raised before any write. -/
def process_payment (db : DB) (uid : Nat) (method : String)
    (planIndex duration : Int) (now : Int) : Option (PayAction × DB) :=
  match pyGet PLANS_plans planIndex with
  | none => none
  | some plan =>
    match plan.priceFor duration with
    | none => none
    | some price =>
      if method = "stars" then
        some (PayAction.invoiceSent
          ("plan_" ++ toString planIndex ++ "_dur_" ++ toString duration)
          (price * 100), db)
      else
        let newEnd := stackBase (selectSubEnd db uid) now + duration * secondsPerDay
        let db1 := db.updateWhere uid (fun v => purchasedUser v newEnd price)
        let subRow : SubRow :=
          ⟨uid, plan.planName, plan.devices, duration, price, method, now, newEnd,
           "vless://sub-" ++ toString uid ++ "@demo.server:443"⟩
        some (PayAction.demoCompleted newEnd, ⟨db1.users, db1.subs ++ [subRow], db1.pays⟩)

/-- A buffered write of the gateway transaction. -/
inductive SqlWrite
  | updateUserPayment (uid : Nat) (newEnd : Int) (price : Int)
  | insertSub (row : SubRow)
  | insertPay (row : PayRow)
  deriving Repr, DecidableEq

def applyWrite (db : DB) : SqlWrite → DB
  | SqlWrite.updateUserPayment uid newEnd price =>
    db.updateWhere uid (fun v => purchasedUser v newEnd price)
  | SqlWrite.insertSub r => ⟨db.users, db.subs ++ [r], db.pays⟩
  | SqlWrite.insertPay r => ⟨db.users, db.subs, db.pays ++ [r]⟩

/-- One sqlite transaction: the writes are buffered on the connection and
    published only by the single final commit; a fault anywhere before the
    commit closes the connection and rolls every buffered write back. -/
def runTxn (db : DB) (writes : List SqlWrite) (faultBeforeCommit : Bool) : DB :=
  if faultBeforeCommit then db else writes.foldl applyWrite db

/-- The post-parse body of successful_payment_callback: one transaction
    holding the user update, the subscription insert and the completed
    payment insert, committed together. -/
def gateway_extend (db : DB) (uid : Nat) (planIndex duration : Int)
    (chargeId currency : String) (now : Int) (faultBeforeCommit : Bool) :
    Option DB :=
  match pyGet PLANS_plans planIndex with
  | none => none
  | some plan =>
    match plan.priceFor duration with
    | none => none
    | some price =>
      let newEnd := stackBase (selectSubEnd db uid) now + duration * secondsPerDay
      let subRow : SubRow :=
        ⟨uid, plan.planName, plan.devices, duration, price, "telegram_stars",
         now, newEnd, "vless://paid-" ++ toString uid ++ "@demo.server:443"⟩
      let payRow : PayRow :=
        ⟨uid, price, currency, "telegram_stars", chargeId, "completed"⟩
      some (runTxn db
        [SqlWrite.updateUserPayment uid newEnd price,
         SqlWrite.insertSub subRow, SqlWrite.insertPay payRow]
        faultBeforeCommit)

/-- successful_payment_callback: decode plan and duration from the invoice
    payload, then run the gateway transaction; none models the exceptions
    of the payload decode, raised before any write. -/
def successful_payment_callback (db : DB) (uid : Nat)
    (payload chargeId currency : String) (now : Int)
    (faultBeforeCommit : Bool) : Option DB :=
  let parts := pySplitU payload
  match pyGet parts 1 with
  | none => none
  | some s1 =>
    match pyToInt s1 with
    | none => none
    | some planIndex =>
      match pyGet parts 3 with
      | none => none
      | some s3 =>
        match pyToInt s3 with
        | none => none
        | some duration =>
          gateway_extend db uid planIndex duration chargeId currency now
            faultBeforeCommit

/-- The screens the navigation can render. -/
inductive Screen
  | languagePick
  | mainMenu
  | planList
  | durationList (planIndex : Int)
  | paymentMethodList (planIndex duration : Int)
  | trialResult
  | paymentResult
  deriving Repr, DecidableEq

/-- Failure classes of a navigation turn: invalidSelection models the
    IndexError / KeyError of a catalog lookup, unroutableAction the
    ValueError / IndexError of decoding a malformed token, typeError the
    TypeError of subscripting a missing user row.  Every one is raised in
    the source before any database write of its branch. -/
inductive NavError
  | invalidSelection
  | unroutableAction
  | typeError
  deriving Repr, DecidableEq

/-- The if/elif dispatch of button_handler, in source order. -/
inductive Route
  | langPick
  | changeLang
  | trial
  | plans
  | planSel
  | durSel
  | paySel
  | backMain
  | unrouted
  deriving Repr, DecidableEq

def route (data : String) : Route :=
  if pyStarts data "lang_" then Route.langPick
  else if data = "change_lang" then Route.changeLang
  else if data = "trial" then Route.trial
  else if data = "plans" then Route.plans
  else if pyStarts data "plan_" then Route.planSel
  else if pyStarts data "dur_" then Route.durSel
  else if pyStarts data "pay_" then Route.paySel
  else if data = "back_main" then Route.backMain
  else Route.unrouted

/-- UPDATE users SET language_code = ? WHERE user_id = ?. -/
def set_language (db : DB) (uid : Nat) (lang : String) : DB :=
  db.updateWhere uid (fun u =>
    ⟨u.userId, u.username, u.firstName, lang, u.createdAt, u.referrerId,
     u.subscriptionEnd, u.isTrialUsed, u.isBlocked, u.totalPaid⟩)

/-- INSERT OR IGNORE INTO users: a no-op when the identity already exists. -/
def create_user (db : DB) (uid : Nat) (username : Option String)
    (firstName : String) (lang : String) (referrerId : Option Int)
    (now : Int) : DB :=
  match db.getUser uid with
  | some _ => db
  | none =>
    ⟨db.users ++ [⟨uid, username, firstName, lang, now, referrerId,
       none, false, false, 0⟩], db.subs, db.pays⟩

/-- show_plans renders the plan list; it reads each plan's 30-day price. -/
def show_plans : Except NavError Screen :=
  if PLANS_plans.all (fun p => (p.priceFor 30).isSome) then
    Except.ok Screen.planList
  else Except.error NavError.invalidSelection

/-- show_durations: PLANS['plans'][plan_index] (IndexError when out of
    range) then each duration's price. -/
def show_durations (planIndex : Int) : Except NavError Screen :=
  match pyGet PLANS_plans planIndex with
  | none => Except.error NavError.invalidSelection
  | some plan =>
    if PLANS_durations.all (fun d => (plan.priceFor d).isSome) then
      Except.ok (Screen.durationList planIndex)
    else Except.error NavError.invalidSelection

/-- show_payment_methods: plan lookup then price lookup. -/
def show_payment_methods (planIndex duration : Int) : Except NavError Screen :=
  match pyGet PLANS_plans planIndex with
  | none => Except.error NavError.invalidSelection
  | some plan =>
    match plan.priceFor duration with
    | none => Except.error NavError.invalidSelection
    | some _ => Except.ok (Screen.paymentMethodList planIndex duration)

/-- The observable outcome of one button_handler turn: the screen now
    showing, the database, and the error raised, if any. -/
structure TurnResult where
  screen : Screen
  db : DB
  err : Option NavError
  deriving Repr, DecidableEq

/-- The branch bodies of button_handler.  screen is the screen currently
    showing; the stars branch sends an invoice without editing the message,
    so it keeps the current screen. -/
def button_handler_core (cfg : Config) (pendingReferrer : Option Int)
    (db : DB) (uid : Nat) (username : Option String) (firstName : String)
    (data : String) (now : Int) (screen : Screen) :
    Except NavError (Screen × DB) :=
  match route data with
  | Route.langPick =>
    match pyGet (pySplitU data) 1 with
    | none => Except.error NavError.unroutableAction
    | some lang =>
      match db.getUser uid with
      | some _ => Except.ok (Screen.mainMenu, set_language db uid lang)
      | none =>
        Except.ok (Screen.mainMenu,
          create_user db uid username firstName lang pendingReferrer now)
  | Route.changeLang => Except.ok (Screen.languagePick, db)
  | Route.trial =>
    match handle_trial cfg db uid now with
    | none => Except.error NavError.typeError
    | some (_, db1) => Except.ok (Screen.trialResult, db1)
  | Route.plans =>
    match show_plans with
    | Except.error e => Except.error e
    | Except.ok s => Except.ok (s, db)
  | Route.planSel =>
    match pyGet (pySplitU data) 1 with
    | none => Except.error NavError.unroutableAction
    | some s1 =>
      match pyToInt s1 with
      | none => Except.error NavError.unroutableAction
      | some i =>
        match show_durations i with
        | Except.error e => Except.error e
        | Except.ok s => Except.ok (s, db)
  | Route.durSel =>
    match pySplitU data with
    | [_, a, b] =>
      match pyToInt a, pyToInt b with
      | some i, some d =>
        match show_payment_methods i d with
        | Except.error e => Except.error e
        | Except.ok s => Except.ok (s, db)
      | _, _ => Except.error NavError.unroutableAction
    | _ => Except.error NavError.unroutableAction
  | Route.paySel =>
    let parts := pySplitU data
    match pyGet parts 1, pyGet parts 2, pyGet parts 3 with
    | some m, some s2, some s3 =>
      match pyToInt s2, pyToInt s3 with
      | some i, some d =>
        match process_payment db uid m i d now with
        | none => Except.error NavError.invalidSelection
        | some (PayAction.invoiceSent _ _, db1) => Except.ok (screen, db1)
        | some (PayAction.demoCompleted _, db1) =>
          Except.ok (Screen.paymentResult, db1)
      | _, _ => Except.error NavError.unroutableAction
    | _, _, _ => Except.error NavError.unroutableAction
  | Route.backMain => Except.ok (Screen.mainMenu, db)
  | Route.unrouted => Except.ok (screen, db)

/-- One turn: a raised error leaves the showing screen and the database
    exactly as they were (no branch writes before it raises). -/
def button_handler (cfg : Config) (pendingReferrer : Option Int)
    (db : DB) (uid : Nat) (username : Option String) (firstName : String)
    (data : String) (now : Int) (screen : Screen) : TurnResult :=
  match button_handler_core cfg pendingReferrer db uid username firstName
      data now screen with
  | Except.ok (s, db1) => ⟨s, db1, none⟩
  | Except.error e => ⟨screen, db, some e⟩

/-! Sample rows used by the closed witness theorems. -/

def userFresh : UserRow :=
  ⟨1, some "alice", "Alice", "en", 0, none, none, false, false, 0⟩

def userReferred : UserRow :=
  ⟨2, some "bob", "Bob", "en", 0, some 1, none, false, false, 0⟩

def userUsed : UserRow :=
  ⟨3, none, "Carol", "en", 0, none, some 1000000, true, false, 20⟩

def dbW : DB := ⟨[userFresh, userReferred, userUsed], [], []⟩

def cfgW : Config := ⟨"tok", [1], 3, 7, "@Support", "", ""⟩

def planBasic : Plan := ⟨"Basic", 1, [(30, 5), (60, 9), (180, 25), (365, 45)]⟩

def envW : String → Option String := fun k =>
  if k = "BOT_TOKEN" then some "t"
  else if k = "TRIAL_DAYS" then some "10"
  else none

/-! Helper lemmas. -/

theorem lookupUser_map_update (uid : Nat) (f : UserRow → UserRow)
    (hf : ∀ v, (f v).userId = v.userId) (l : List UserRow) :
    lookupUser (l.map (fun v => if v.userId = uid then f v else v)) uid
      = (lookupUser l uid).map f := by
  induction l with
  | nil => rfl
  | cons u rest ih =>
    by_cases h : u.userId = uid
    · simp [lookupUser, h, hf u]
    · simp [lookupUser, h, ih]

theorem getUser_updateWhere (db : DB) (uid : Nat) (f : UserRow → UserRow)
    (hf : ∀ v, (f v).userId = v.userId) :
    (db.updateWhere uid f).getUser uid = (db.getUser uid).map f :=
  lookupUser_map_update uid f hf db.users

theorem stackBase_eq_spec (s : Option Int) (now : Int) :
    stackBase s now = specExpiryBase s now := by
  cases s with
  | none => simp [stackBase, specExpiryBase]
  | some e =>
    simp only [stackBase, specExpiryBase]
    by_cases h1 : e < now
    · rw [if_pos h1, if_neg (by omega)]
    · rw [if_neg h1]
      by_cases h2 : now < e
      · rw [if_pos h2]
      · rw [if_neg h2]; omega

theorem handle_trial_missing (cfg : Config) (db : DB) (uid : Nat) (now : Int)
    (h : db.getUser uid = none) : handle_trial cfg db uid now = none := by
  simp [handle_trial, h]

theorem handle_trial_used (cfg : Config) (db : DB) (uid : Nat) (now : Int)
    (u : UserRow) (hu : db.getUser uid = some u) (hflag : u.isTrialUsed = true) :
    handle_trial cfg db uid now = some (TrialOutcome.alreadyUsed, db) := by
  simp [handle_trial, hu, hflag]

theorem handle_trial_fresh (cfg : Config) (db : DB) (uid : Nat) (now : Int)
    (u : UserRow) (hu : db.getUser uid = some u) (hflag : u.isTrialUsed = false) :
    handle_trial cfg db uid now
      = some (TrialOutcome.activated (if intTruthy u.referrerId then 7 else 3)
          (now + (if intTruthy u.referrerId then 7 else 3) * secondsPerDay),
          db.updateWhere uid (fun v => trialGrantedUser v
            (now + (if intTruthy u.referrerId then 7 else 3) * secondsPerDay))) := by
  simp [handle_trial, hu, hflag]

theorem runTrials_missing (cfg : Config) (uid : Nat) (nows : List Int)
    (db : DB) (h : db.getUser uid = none) :
    runTrials cfg uid db nows = (db, []) := by
  induction nows with
  | nil => rfl
  | cons now rest ih => simp [runTrials, handle_trial_missing cfg db uid now h, ih]

theorem runTrials_used (cfg : Config) (uid : Nat) (nows : List Int)
    (db : DB) (u : UserRow) (hu : db.getUser uid = some u)
    (hflag : u.isTrialUsed = true) :
    runTrials cfg uid db nows
      = (db, List.replicate nows.length TrialOutcome.alreadyUsed) := by
  induction nows with
  | nil => rfl
  | cons now rest ih =>
    simp [runTrials, handle_trial_used cfg db uid now u hu hflag, ih,
      List.replicate]

theorem countP_replicate_already (n : Nat) :
    List.countP isActivatedB (List.replicate n TrialOutcome.alreadyUsed) = 0 := by
  induction n with
  | zero => rfl
  | succ n ih => simp [List.replicate, List.countP_cons, ih, isActivatedB]

theorem runTrials_count_le_one (cfg : Config) (uid : Nat) (nows : List Int) :
    ∀ db : DB, List.countP isActivatedB (runTrials cfg uid db nows).2 ≤ 1 := by
  induction nows with
  | nil => intro db; simp [runTrials]
  | cons now rest ih =>
    intro db
    cases hgu : db.getUser uid with
    | none =>
      rw [runTrials, handle_trial_missing cfg db uid now hgu]
      exact ih db
    | some u =>
      cases hflag : u.isTrialUsed with
      | true =>
        rw [runTrials, handle_trial_used cfg db uid now u hgu hflag]
        simpa [List.countP_cons, isActivatedB] using ih db
      | false =>
        have hgu1 : (db.updateWhere uid (fun v => trialGrantedUser v
            (now + (if intTruthy u.referrerId then 7 else 3) * secondsPerDay))).getUser uid
            = some (trialGrantedUser u
                (now + (if intTruthy u.referrerId then 7 else 3) * secondsPerDay)) := by
          rw [getUser_updateWhere db uid
            (fun v => trialGrantedUser v
              (now + (if intTruthy u.referrerId then 7 else 3) * secondsPerDay))
            (fun v => rfl), hgu]
          rfl
        simp only [runTrials, handle_trial_fresh cfg db uid now u hgu hflag]
        rw [runTrials_used cfg uid rest _ _ hgu1 rfl]
        simp [List.countP_cons, isActivatedB, countP_replicate_already]

/-- Shared step fact: granting a fresh trial activates for 7 or 3 days
    (keyed on Python truthiness of referrer_id), overwrites the expiry and
    sets the flag, leaving every other user field unchanged. -/
theorem handle_trial_grant (cfg : Config) (db : DB) (uid : Nat) (now : Int)
    (u : UserRow) (hu : db.getUser uid = some u)
    (hfresh : u.isTrialUsed = false) :
    ∃ db1,
      handle_trial cfg db uid now
        = some (TrialOutcome.activated (if intTruthy u.referrerId then 7 else 3)
            (now + (if intTruthy u.referrerId then 7 else 3) * secondsPerDay), db1)
      ∧ db1.getUser uid
          = some (trialGrantedUser u
              (now + (if intTruthy u.referrerId then 7 else 3) * secondsPerDay)) := by
  refine ⟨_, handle_trial_fresh cfg db uid now u hu hfresh, ?_⟩
  rw [getUser_updateWhere db uid
    (fun v => trialGrantedUser v
      (now + (if intTruthy u.referrerId then 7 else 3) * secondsPerDay))
    (fun v => rfl), hu]
  rfl

/-! Claim theorems. -/

/-- C2: Trial-once law.  For a user whose trial-used flag is already set,
    handle_trial answers AlreadyGranted and returns the database literally
    unchanged (no write, all user fields intact), and any sequence of
    attempts yields only AlreadyGranted; across any sequence of attempts
    the activation outcome occurs at most once, so the flag transitions
    false to true at most once. -/
theorem trial_once_law (cfg : Config) (uid : Nat) (db : DB) (now : Int)
    (nows : List Int) (u : UserRow) (hu : db.getUser uid = some u) :
    (u.isTrialUsed = true →
      handle_trial cfg db uid now = some (TrialOutcome.alreadyUsed, db)
        ∧ runTrials cfg uid db nows
            = (db, List.replicate nows.length TrialOutcome.alreadyUsed))
    ∧ List.countP isActivatedB (runTrials cfg uid db nows).2 ≤ 1 := by
  refine ⟨fun hflag => ⟨handle_trial_used cfg db uid now u hu hflag,
    runTrials_used cfg uid nows db u hu hflag⟩, ?_⟩
  exact runTrials_count_le_one cfg uid nows db

/-- C2 witness at a concrete already-used user. -/
theorem trial_once_witness :
    (handle_trial cfgW dbW 3 5 = some (TrialOutcome.alreadyUsed, dbW)
      ∧ runTrials cfgW 3 dbW [1, 2]
          = (dbW, List.replicate 2 TrialOutcome.alreadyUsed))
    ∧ List.countP isActivatedB (runTrials cfgW 3 dbW [1, 2]).2 ≤ 1 :=
  ⟨(trial_once_law cfgW 3 dbW 5 [1, 2] userUsed rfl).1 rfl,
   (trial_once_law cfgW 3 dbW 5 [1, 2] userUsed rfl).2⟩

/-- C4: Referral bonus law.  Granting a fresh trial uses exactly 7 days
    when the referrer reference is set (truthy) and exactly 3 otherwise,
    sets the new expiry to now + days and sets the trial-used flag. -/
theorem referral_bonus_law (cfg : Config) (db : DB) (uid : Nat) (now : Int)
    (u : UserRow) (hu : db.getUser uid = some u)
    (hfresh : u.isTrialUsed = false) :
    ∃ db1,
      handle_trial cfg db uid now
        = some (TrialOutcome.activated (if intTruthy u.referrerId then 7 else 3)
            (now + (if intTruthy u.referrerId then 7 else 3) * secondsPerDay), db1)
      ∧ db1.getUser uid
          = some (trialGrantedUser u
              (now + (if intTruthy u.referrerId then 7 else 3) * secondsPerDay)) :=
  handle_trial_grant cfg db uid now u hu hfresh

/-- C4 witness: a referred user gets 7 days, an unreferred one 3 days. -/
theorem referral_bonus_witness :
    (∃ db1,
      handle_trial cfgW dbW 2 0
        = some (TrialOutcome.activated 7 604800, db1)
      ∧ db1.getUser 2
          = some ⟨2, some "bob", "Bob", "en", 0, some 1, some 604800, true,
                  false, 0⟩)
    ∧ (∃ db1,
      handle_trial cfgW dbW 1 0
        = some (TrialOutcome.activated 3 259200, db1)
      ∧ db1.getUser 1
          = some ⟨1, some "alice", "Alice", "en", 0, none, some 259200, true,
                  false, 0⟩) :=
  ⟨referral_bonus_law cfgW dbW 2 0 userReferred rfl rfl,
   referral_bonus_law cfgW dbW 1 0 userFresh rfl rfl⟩

/-- C9 (implicit): granting the trial overwrites an existing later expiry —
    for a fresh user already entitled past now + 7 days, the grant strictly
    shortens the entitlement. -/
theorem trial_overwrite_shortens (cfg : Config) (db : DB) (uid : Nat)
    (now : Int) (u : UserRow) (E : Int)
    (hu : db.getUser uid = some u) (hfresh : u.isTrialUsed = false)
    (hE : u.subscriptionEnd = some E)
    (hlate : now + 7 * secondsPerDay < E) :
    ∃ days newEnd db1,
      handle_trial cfg db uid now
        = some (TrialOutcome.activated days newEnd, db1)
      ∧ db1.getUser uid = some (trialGrantedUser u newEnd)
      ∧ newEnd < E := by
  obtain ⟨db1, h1, h2⟩ := handle_trial_grant cfg db uid now u hu hfresh
  refine ⟨_, _, db1, h1, h2, ?_⟩
  by_cases hr : intTruthy u.referrerId <;> simp only [hr, if_true, if_false] <;>
    simp only [secondsPerDay] at hlate ⊢ <;> omega

/-- C9 witness: entitled to 100 days, a trial grant cuts it to 3 days. -/
theorem trial_overwrite_witness :
    ∃ days newEnd db1,
      handle_trial cfgW ⟨[⟨4, none, "Dan", "en", 0, none, some 8640000,
          false, false, 0⟩], [], []⟩ 4 0
        = some (TrialOutcome.activated days newEnd, db1)
      ∧ db1.getUser 4
          = some (trialGrantedUser ⟨4, none, "Dan", "en", 0, none,
              some 8640000, false, false, 0⟩ newEnd)
      ∧ newEnd < 8640000 :=
  trial_overwrite_shortens cfgW
    ⟨[⟨4, none, "Dan", "en", 0, none, some 8640000, false, false, 0⟩], [], []⟩
    4 0 ⟨4, none, "Dan", "en", 0, none, some 8640000, false, false, 0⟩
    8640000 rfl rfl rfl (by decide)

/-- C10 (implicit): the configured trial_days / referred_trial_days are
    loaded by load_config but never consulted by the trial grant — the
    grant is identical under any two configurations and always uses the
    hardcoded 3 or 7 days. -/
theorem trial_config_independence :
    (∀ (cfg1 cfg2 : Config) (db : DB) (uid : Nat) (now : Int),
      handle_trial cfg1 db uid now = handle_trial cfg2 db uid now)
    ∧ (∀ (cfg : Config) (db : DB) (uid : Nat) (now d e : Int) (db1 : DB),
      handle_trial cfg db uid now = some (TrialOutcome.activated d e, db1) →
      d = 3 ∨ d = 7)
    ∧ (∀ (env : String → Option String) (cfg : Config),
      load_config env = some cfg →
      pyToInt ((env "TRIAL_DAYS").getD "3") = some cfg.trialDays
        ∧ pyToInt ((env "REFERRED_TRIAL_DAYS").getD "7") = some cfg.referredTrialDays) := by
  refine ⟨fun cfg1 cfg2 db uid now => rfl, ?_, ?_⟩
  · intro cfg db uid now d e db1 h
    cases hgu : db.getUser uid with
    | none => rw [handle_trial_missing cfg db uid now hgu] at h; cases h
    | some u =>
      cases hflag : u.isTrialUsed with
      | true => rw [handle_trial_used cfg db uid now u hgu hflag] at h; cases h
      | false =>
        rw [handle_trial_fresh cfg db uid now u hgu hflag] at h
        by_cases hr : intTruthy u.referrerId
        · simp [hr] at h
          right; omega
        · simp [hr] at h
          left; omega
  · intro env cfg h
    unfold load_config at h
    cases hb : env "BOT_TOKEN" with
    | none => simp [hb] at h
    | some tok =>
      rw [hb] at h
      cases ht : pyToInt ((env "TRIAL_DAYS").getD "3") with
      | none => simp [ht] at h
      | some td =>
        rw [ht] at h
        cases hr : pyToInt ((env "REFERRED_TRIAL_DAYS").getD "7") with
        | none => simp [hr] at h
        | some rd =>
          rw [hr] at h
          cases h
          exact ⟨rfl, rfl⟩

/-- C10 witness: two configurations with different trial-day settings give
    the same grant, and a loaded configuration reflects its environment. -/
theorem trial_config_independence_witness :
    handle_trial ⟨"a", [], 30, 60, "s", "", ""⟩ dbW 1 0
      = handle_trial ⟨"b", [9], 1, 2, "t", "p", "w"⟩ dbW 1 0
    ∧ (pyToInt ((envW "TRIAL_DAYS").getD "3") = some 10
        ∧ pyToInt ((envW "REFERRED_TRIAL_DAYS").getD "7") = some 7) :=
  ⟨trial_config_independence.1 ⟨"a", [], 30, 60, "s", "", ""⟩
    ⟨"b", [9], 1, 2, "t", "p", "w"⟩ dbW 1 0,
   trial_config_independence.2.2 envW ⟨"t", [], 10, 7, "@Support", "", ""⟩ rfl⟩

/-- C5: Status classification.  get_subscription_status depends only on
    the (expiry, now) pair, and the three classes are characterized by
    mutually exclusive, exhaustive conditions: expiry absent, expiry < now,
    and otherwise Active with daysLeft = floor of the remaining days. -/
theorem status_partition_law :
    (∀ (u v : UserRow) (now : Int), u.subscriptionEnd = v.subscriptionEnd →
      get_subscription_status (some u) now = get_subscription_status (some v) now)
    ∧ (∀ (uo : Option UserRow) (now : Int),
      get_subscription_status uo now = SubStatus.noSubscription
        ↔ subEndOf uo = none)
    ∧ (∀ (uo : Option UserRow) (now : Int),
      get_subscription_status uo now = SubStatus.expired
        ↔ ∃ e, subEndOf uo = some e ∧ e < now)
    ∧ (∀ (uo : Option UserRow) (now d : Int),
      get_subscription_status uo now = SubStatus.active d
        ↔ ∃ e, subEndOf uo = some e ∧ ¬ e < now
            ∧ d = Int.fdiv (e - now) secondsPerDay) := by
  refine ⟨?_, ?_, ?_, ?_⟩
  · intro u v now h
    simp only [get_subscription_status, h]
  · intro uo now
    cases uo with
    | none => simp [get_subscription_status, subEndOf]
    | some u =>
      cases he : u.subscriptionEnd with
      | none => simp [get_subscription_status, subEndOf, he]
      | some e =>
        by_cases hlt : e < now <;>
          simp [get_subscription_status, subEndOf, he, hlt]
  · intro uo now
    cases uo with
    | none => simp [get_subscription_status, subEndOf]
    | some u =>
      cases he : u.subscriptionEnd with
      | none => simp [get_subscription_status, subEndOf, he]
      | some e =>
        by_cases hlt : e < now <;>
          simp [get_subscription_status, subEndOf, he, hlt]
  · intro uo now d
    cases uo with
    | none => simp [get_subscription_status, subEndOf]
    | some u =>
      cases he : u.subscriptionEnd with
      | none => simp [get_subscription_status, subEndOf, he]
      | some e =>
        by_cases hlt : e < now
        · simp [get_subscription_status, subEndOf, he, hlt]
        · simp [get_subscription_status, subEndOf, he, hlt, eq_comm]
          intro _
          omega

/-- C5 witness: an entitled user at instant 0 is Active with 11 days left,
    the same expiry one instant after it is Expired, and an absent row is
    NoSubscription. -/
theorem status_partition_witness :
    get_subscription_status (some userUsed) 0 = SubStatus.active 11
    ∧ get_subscription_status (some userUsed) 1000001 = SubStatus.expired
    ∧ get_subscription_status none 5 = SubStatus.noSubscription :=
  ⟨(status_partition_law.2.2.2 (some userUsed) 0 11).mpr
      ⟨1000000, rfl, by decide, by decide⟩,
   (status_partition_law.2.2.1 (some userUsed) 1000001).mpr
      ⟨1000000, rfl, by decide⟩,
   (status_partition_law.2.1 none 5).mpr rfl⟩

/-- C8: MainMenu variants.  Pre-trial (or absent) users see exactly
    Trial, Buy, About, Support, Language; post-trial users see exactly
    Buy, Account, Referral, Promo, Help, Support, Language; an identity in
    the admin set gets an Admin entry appended in either variant. -/
theorem main_menu_variants (adminIds : List Nat) (db : DB) (uid : Nat) :
    ((db.getUser uid = none
        ∨ (∃ u, db.getUser uid = some u ∧ u.isTrialUsed = false)) →
      (get_main_menu adminIds db uid).flatten
        = [MenuButton.trial, MenuButton.buy, MenuButton.about,
           MenuButton.support, MenuButton.language]
            ++ (if uid ∈ adminIds then [MenuButton.admin] else []))
    ∧ (∀ u, db.getUser uid = some u → u.isTrialUsed = true →
      (get_main_menu adminIds db uid).flatten
        = [MenuButton.buy, MenuButton.account, MenuButton.referral,
           MenuButton.promo, MenuButton.help, MenuButton.support,
           MenuButton.language]
            ++ (if uid ∈ adminIds then [MenuButton.admin] else [])) := by
  constructor
  · intro h1
    by_cases ha : uid ∈ adminIds <;> rcases h1 with h | ⟨u, hu, hf⟩ <;>
      simp [get_main_menu, ha, *]
  · intro u hu hf
    by_cases ha : uid ∈ adminIds <;> simp [get_main_menu, hu, hf, ha]

/-- C8 witness: a pre-trial admin, and a post-trial non-admin. -/
theorem main_menu_witness :
    (get_main_menu [1] dbW 1).flatten
      = [MenuButton.trial, MenuButton.buy, MenuButton.about,
         MenuButton.support, MenuButton.language, MenuButton.admin]
    ∧ (get_main_menu [1] dbW 3).flatten
      = [MenuButton.buy, MenuButton.account, MenuButton.referral,
         MenuButton.promo, MenuButton.help, MenuButton.support,
         MenuButton.language] :=
  ⟨(main_menu_variants [1] dbW 1).1 (Or.inr ⟨userFresh, rfl, rfl⟩),
   (main_menu_variants [1] dbW 3).2 userUsed rfl rfl⟩

/-- Computation of the demo branch of process_payment, spelled out. -/
theorem process_payment_demo (db : DB) (uid : Nat) (method : String)
    (planIndex duration now : Int) (plan : Plan) (price : Int)
    (hplan : pyGet PLANS_plans planIndex = some plan)
    (hprice : plan.priceFor duration = some price)
    (hmethod : method ≠ "stars") :
    process_payment db uid method planIndex duration now
      = some (PayAction.demoCompleted
          (stackBase (selectSubEnd db uid) now + duration * secondsPerDay),
          ⟨(db.updateWhere uid (fun v => purchasedUser v
              (stackBase (selectSubEnd db uid) now + duration * secondsPerDay)
              price)).users,
           db.subs ++ [⟨uid, plan.planName, plan.devices, duration, price,
             method, now,
             stackBase (selectSubEnd db uid) now + duration * secondsPerDay,
             "vless://sub-" ++ toString uid ++ "@demo.server:443"⟩],
           db.pays⟩) := by
  simp only [process_payment, hplan, hprice, if_neg hmethod]
  rfl

/-- Computation of the gateway transaction when no fault is injected. -/
theorem gateway_extend_false (db : DB) (uid : Nat) (planIndex duration : Int)
    (chargeId currency : String) (now : Int) (plan : Plan) (price : Int)
    (hplan : pyGet PLANS_plans planIndex = some plan)
    (hprice : plan.priceFor duration = some price) :
    gateway_extend db uid planIndex duration chargeId currency now false
      = some ⟨(db.updateWhere uid (fun v => purchasedUser v
            (stackBase (selectSubEnd db uid) now + duration * secondsPerDay)
            price)).users,
          db.subs ++ [⟨uid, plan.planName, plan.devices, duration, price,
            "telegram_stars", now,
            stackBase (selectSubEnd db uid) now + duration * secondsPerDay,
            "vless://paid-" ++ toString uid ++ "@demo.server:443"⟩],
          db.pays ++ [⟨uid, price, currency, "telegram_stars", chargeId,
            "completed"⟩]⟩ := by
  simp only [gateway_extend, hplan, hprice]
  rfl

/-- Reading back the updated user through any subscriptions/payments
    tables. -/
theorem getUser_mk_update (db : DB) (uid : Nat) (nE p0 : Int) (u : UserRow)
    (hu : db.getUser uid = some u) (ss : List SubRow) (ps : List PayRow) :
    (DB.mk (db.updateWhere uid
        (fun v => purchasedUser v nE p0)).users ss ps).getUser uid
      = some (purchasedUser u nE p0) := by
  show (db.updateWhere uid (fun v => purchasedUser v nE p0)).getUser uid = _
  rw [getUser_updateWhere db uid (fun v => purchasedUser v nE p0)
    (fun v => rfl), hu]
  rfl

/-- C1: Extension stacking law.  On both completion paths a purchase of
    duration d at price p sets the new expiry to base + d days where
    base is the current expiry E when now < E and now when E is absent or
    lapsed (specExpiryBase), increments total_paid by exactly p, and
    appends exactly one subscription record (the gateway path also appends
    exactly one payment record). -/
theorem extension_stacking_law (db : DB) (uid : Nat) (method : String)
    (planIndex duration : Int) (now : Int) (u : UserRow) (plan : Plan)
    (price : Int) (chargeId currency : String)
    (hu : db.getUser uid = some u)
    (hplan : pyGet PLANS_plans planIndex = some plan)
    (hprice : plan.priceFor duration = some price)
    (hmethod : method ≠ "stars") :
    (∃ db1,
      process_payment db uid method planIndex duration now
        = some (PayAction.demoCompleted
            (specExpiryBase u.subscriptionEnd now + duration * secondsPerDay),
            db1)
      ∧ db1.getUser uid
          = some (purchasedUser u
              (specExpiryBase u.subscriptionEnd now + duration * secondsPerDay)
              price)
      ∧ db1.subs.length = db.subs.length + 1
      ∧ db1.pays = db.pays)
    ∧ (∃ db2,
      gateway_extend db uid planIndex duration chargeId currency now false
        = some db2
      ∧ db2.getUser uid
          = some (purchasedUser u
              (specExpiryBase u.subscriptionEnd now + duration * secondsPerDay)
              price)
      ∧ db2.subs.length = db.subs.length + 1
      ∧ db2.pays.length = db.pays.length + 1) := by
  have hbase : stackBase (selectSubEnd db uid) now
      = specExpiryBase u.subscriptionEnd now := by
    rw [show selectSubEnd db uid = u.subscriptionEnd by
      simp [selectSubEnd, hu], stackBase_eq_spec]
  constructor
  · refine ⟨⟨(db.updateWhere uid (fun v => purchasedUser v
        (specExpiryBase u.subscriptionEnd now + duration * secondsPerDay)
        price)).users,
      db.subs ++ [⟨uid, plan.planName, plan.devices, duration, price,
        method, now,
        specExpiryBase u.subscriptionEnd now + duration * secondsPerDay,
        "vless://sub-" ++ toString uid ++ "@demo.server:443"⟩],
      db.pays⟩, ?_, ?_, ?_, ?_⟩
    · rw [process_payment_demo db uid method planIndex duration now plan price
        hplan hprice hmethod, hbase]
    · exact getUser_mk_update db uid _ _ u hu _ _
    · simp
    · rfl
  · refine ⟨⟨(db.updateWhere uid (fun v => purchasedUser v
        (specExpiryBase u.subscriptionEnd now + duration * secondsPerDay)
        price)).users,
      db.subs ++ [⟨uid, plan.planName, plan.devices, duration, price,
        "telegram_stars", now,
        specExpiryBase u.subscriptionEnd now + duration * secondsPerDay,
        "vless://paid-" ++ toString uid ++ "@demo.server:443"⟩],
      db.pays ++ [⟨uid, price, currency, "telegram_stars", chargeId,
        "completed"⟩]⟩, ?_, ?_, ?_, ?_⟩
    · rw [gateway_extend_false db uid planIndex duration chargeId currency now
        plan price hplan hprice, hbase]
    · exact getUser_mk_update db uid _ _ u hu _ _
    · simp
    · simp

/-- C1 witness: an entitled user (expiry 1000000, now 0) buys the 30-day
    Basic plan for 5 through the demo path and the gateway path. -/
theorem extension_stacking_witness :
    (∃ db1,
      process_payment dbW 3 "card" 0 30 0
        = some (PayAction.demoCompleted
            (specExpiryBase userUsed.subscriptionEnd 0 + 30 * secondsPerDay),
            db1)
      ∧ db1.getUser 3
          = some (purchasedUser userUsed
              (specExpiryBase userUsed.subscriptionEnd 0 + 30 * secondsPerDay)
              5)
      ∧ db1.subs.length = dbW.subs.length + 1
      ∧ db1.pays = dbW.pays)
    ∧ (∃ db2,
      gateway_extend dbW 3 0 30 "chg1" "XTR" 0 false = some db2
      ∧ db2.getUser 3
          = some (purchasedUser userUsed
              (specExpiryBase userUsed.subscriptionEnd 0 + 30 * secondsPerDay)
              5)
      ∧ db2.subs.length = dbW.subs.length + 1
      ∧ db2.pays.length = dbW.pays.length + 1) :=
  extension_stacking_law dbW 3 "card" 0 30 0 userUsed planBasic 5 "chg1" "XTR"
    rfl rfl rfl (by decide)

/-- C3: Gateway-path atomicity.  Every outcome of the asynchronous payment
    completion either changes neither append-only table or appends exactly
    one subscription record together with exactly one completed payment
    record carrying the gateway reference; a fault before the single commit
    leaves the whole database unchanged. -/
theorem gateway_atomic_commit (db : DB) (uid : Nat)
    (payload chargeId currency : String) (now : Int) (fault : Bool)
    (db1 : DB)
    (h : successful_payment_callback db uid payload chargeId currency now
      fault = some db1) :
    ((db1.subs = db.subs ∧ db1.pays = db.pays)
      ∨ (∃ s p, db1.subs = db.subs ++ [s] ∧ db1.pays = db.pays ++ [p]
          ∧ p.status = "completed" ∧ p.paymentId = chargeId
          ∧ p.userId = uid))
    ∧ (fault = true → db1 = db) := by
  unfold successful_payment_callback at h
  cases h1 : pyGet (pySplitU payload) 1 with
  | none => simp [h1] at h
  | some s1 =>
  simp only [h1] at h
  cases h2 : pyToInt s1 with
  | none => simp [h2] at h
  | some planIndex =>
  simp only [h2] at h
  cases h3 : pyGet (pySplitU payload) 3 with
  | none => simp [h3] at h
  | some s3 =>
  simp only [h3] at h
  cases h4 : pyToInt s3 with
  | none => simp [h4] at h
  | some duration =>
  simp only [h4] at h
  unfold gateway_extend at h
  cases h5 : pyGet PLANS_plans planIndex with
  | none => simp [h5] at h
  | some plan =>
  simp only [h5] at h
  cases h6 : plan.priceFor duration with
  | none => simp [h6] at h
  | some price =>
  simp only [h6, Option.some.injEq] at h
  cases fault with
  | true =>
    rw [show runTxn db
        [SqlWrite.updateUserPayment uid
          (stackBase (selectSubEnd db uid) now + duration * secondsPerDay)
          price,
         SqlWrite.insertSub ⟨uid, plan.planName, plan.devices, duration,
           price, "telegram_stars", now,
           stackBase (selectSubEnd db uid) now + duration * secondsPerDay,
           "vless://paid-" ++ toString uid ++ "@demo.server:443"⟩,
         SqlWrite.insertPay ⟨uid, price, currency, "telegram_stars",
           chargeId, "completed"⟩] true = db from rfl] at h
    subst h
    exact ⟨Or.inl ⟨rfl, rfl⟩, fun _ => rfl⟩
  | false =>
    rw [show (runTxn db
        [SqlWrite.updateUserPayment uid
          (stackBase (selectSubEnd db uid) now + duration * secondsPerDay)
          price,
         SqlWrite.insertSub ⟨uid, plan.planName, plan.devices, duration,
           price, "telegram_stars", now,
           stackBase (selectSubEnd db uid) now + duration * secondsPerDay,
           "vless://paid-" ++ toString uid ++ "@demo.server:443"⟩,
         SqlWrite.insertPay ⟨uid, price, currency, "telegram_stars",
           chargeId, "completed"⟩] false : DB)
      = ⟨(db.updateWhere uid (fun v => purchasedUser v
            (stackBase (selectSubEnd db uid) now + duration * secondsPerDay)
            price)).users,
         db.subs ++ [⟨uid, plan.planName, plan.devices, duration, price,
           "telegram_stars", now,
           stackBase (selectSubEnd db uid) now + duration * secondsPerDay,
           "vless://paid-" ++ toString uid ++ "@demo.server:443"⟩],
         db.pays ++ [⟨uid, price, currency, "telegram_stars", chargeId,
           "completed"⟩]⟩ from rfl] at h
    subst h
    exact ⟨Or.inr ⟨_, _, rfl, rfl, rfl, rfl, rfl⟩, fun hf => nomatch hf⟩

/-- C3 witness: a concrete completed gateway payment, settled by the
    atomicity theorem. -/
theorem gateway_atomic_witness :
    (((successful_payment_callback dbW 3 "plan_0_dur_30" "chg1" "XTR" 0
          false).getD dbW).subs = dbW.subs
      ∧ ((successful_payment_callback dbW 3 "plan_0_dur_30" "chg1" "XTR" 0
          false).getD dbW).pays = dbW.pays)
    ∨ (∃ s p,
      ((successful_payment_callback dbW 3 "plan_0_dur_30" "chg1" "XTR" 0
          false).getD dbW).subs = dbW.subs ++ [s]
      ∧ ((successful_payment_callback dbW 3 "plan_0_dur_30" "chg1" "XTR" 0
          false).getD dbW).pays = dbW.pays ++ [p]
      ∧ p.status = "completed" ∧ p.paymentId = "chg1" ∧ p.userId = 3) :=
  (gateway_atomic_commit dbW 3 "plan_0_dur_30" "chg1" "XTR" 0 false
    ((successful_payment_callback dbW 3 "plan_0_dur_30" "chg1" "XTR" 0
      false).getD dbW) rfl).1

/-- C6: Invalid selection handling.  A plan index outside the catalog range
    makes show_durations fail with InvalidSelection, a duration missing
    from a plan's price table makes show_payment_methods fail with
    InvalidSelection, and a turn carrying the token plan_9 against the
    3-plan catalog fails with InvalidSelection leaving the showing screen
    and the whole database unchanged. -/
theorem invalid_selection_law :
    (∀ i : Int,
      ((PLANS_plans.length : Int) ≤ i ∨ i < -(PLANS_plans.length : Int)) →
      show_durations i = Except.error NavError.invalidSelection)
    ∧ (∀ (i d : Int) (plan : Plan), pyGet PLANS_plans i = some plan →
      plan.priceFor d = none →
      show_payment_methods i d = Except.error NavError.invalidSelection)
    ∧ (∀ (cfg : Config) (pending : Option Int) (db : DB) (uid : Nat)
      (username : Option String) (firstName : String) (now : Int)
      (screen : Screen),
      button_handler cfg pending db uid username firstName "plan_9" now screen
        = ⟨screen, db, some NavError.invalidSelection⟩) := by
  refine ⟨?_, ?_, ?_⟩
  · intro i hi
    have hnone : pyGet PLANS_plans i = none := by
      unfold pyGet
      by_cases hneg : i < 0
      · rcases hi with hi | hi
        · omega
        · rw [if_pos hneg, if_pos (by omega)]
      · rcases hi with hi | hi
        · rw [if_neg hneg, if_neg (by omega)]
          exact List.get?_eq_none.mpr (by omega)
        · omega
    simp [show_durations, hnone]
  · intro i d plan hplan hnone
    simp [show_payment_methods, hplan, hnone]
  · intro cfg pending db uid username firstName now screen
    rfl

/-- C6 witness: the out-of-range index 9 at every layer. -/
theorem invalid_selection_witness :
    show_durations 9 = Except.error NavError.invalidSelection
    ∧ show_payment_methods 0 45 = Except.error NavError.invalidSelection
    ∧ button_handler cfgW none dbW 1 none "A" "plan_9" 0 Screen.mainMenu
        = ⟨Screen.mainMenu, dbW, some NavError.invalidSelection⟩ :=
  ⟨invalid_selection_law.1 9 (by decide),
   invalid_selection_law.2.1 0 45 planBasic rfl rfl,
   invalid_selection_law.2.2 cfgW none dbW 1 none "A" 0 Screen.mainMenu⟩

/-- C7: Unroutable action handling.  A token matching none of the routable
    patterns leaves the turn without error, screen and database exactly as
    they were (the dispatcher falls through); and every turn that does fail
    leaves the showing screen and the whole database unchanged — a failure
    never corrupts state and never escapes the turn. -/
theorem unroutable_action_law :
    (∀ (data : String), route data = Route.unrouted →
      ∀ (cfg : Config) (pending : Option Int) (db : DB) (uid : Nat)
        (username : Option String) (firstName : String) (now : Int)
        (screen : Screen),
      button_handler cfg pending db uid username firstName data now screen
        = ⟨screen, db, none⟩)
    ∧ (∀ (cfg : Config) (pending : Option Int) (db : DB) (uid : Nat)
      (username : Option String) (firstName : String) (data : String)
      (now : Int) (screen : Screen) (e : NavError),
      (button_handler cfg pending db uid username firstName data now
        screen).err = some e →
      button_handler cfg pending db uid username firstName data now screen
        = ⟨screen, db, some e⟩) := by
  constructor
  · intro data hroute cfg pending db uid username firstName now screen
    unfold button_handler button_handler_core
    rw [hroute]
  · intro cfg pending db uid username firstName data now screen e h
    unfold button_handler at h ⊢
    cases hc : button_handler_core cfg pending db uid username firstName
        data now screen with
    | ok p =>
      obtain ⟨s, db1⟩ := p
      rw [hc] at h
      simp at h
    | error e0 =>
      rw [hc] at h
      have he : e0 = e := by simpa using h
      subst he
      rfl

/-- C7 witness: an unknown token is ignored without any change, and a
    malformed token of a known verb fails leaving everything unchanged. -/
theorem unroutable_action_witness :
    button_handler cfgW none dbW 7 none "A" "frobnicate" 0 Screen.planList
      = ⟨Screen.planList, dbW, none⟩
    ∧ button_handler cfgW none dbW 7 none "A" "plan_x" 0 Screen.planList
      = ⟨Screen.planList, dbW, some NavError.unroutableAction⟩ :=
  ⟨unroutable_action_law.1 "frobnicate" (by decide) cfgW none dbW 7 none "A" 0
    Screen.planList,
   unroutable_action_law.2 cfgW none dbW 7 none "A" "plan_x" 0 Screen.planList
    NavError.unroutableAction rfl⟩

end VpnBot
